import Mathlib

/-!
Verification of the adaptive admission-control core of the `thunder`
GraphQL server (`graphql/ratelimit.go`, entry validation of
`graphql/http.go`).

Shallow embedding conventions:
* Go `int` and `time.Duration` (an `int64` nanosecond count) are modelled
  as `Int`; none of the verified claims involves values anywhere near the
  64-bit overflow boundary, so wrap-around is not modelled.
* Go integer division truncates toward zero, which is `Int.tdiv`.
* Time is an explicit `now : Int` parameter; `time.Since(t)` becomes
  `now - t`.  `time.Sleep` is recorded in an explicit `sleeps` list.
* The mutex serializes the operations; sequentially each operation is a
  pure state transformer on `RatelimitObject`.
-/

namespace Thunder

/-- The `endRequestState` enumeration of `ratelimit.go`
(`endRequestStateOK = 0`, `endRequestStateError = 1`,
`endRequestStateCanceled = 2`). -/
inductive EndRequestState where
  | ok : EndRequestState
  | error : EndRequestState
  | canceled : EndRequestState
deriving DecidableEq

/-- The `RatelimitObject` struct of `ratelimit.go` (the `sync.Mutex`
field has no sequential content and is omitted). -/
structure RatelimitObject where
  activeRequestsCount : Int
  maxRequests : Int
  minRequests : Int
  currentMaxRequestsLevel : Int
  predictedDuration : Int
  waitTime : Int
deriving DecidableEq

/-- The `ActiveRequest` struct of `ratelimit.go`. -/
structure ActiveRequest where
  startedAt : Int
  predictedAt : Int
deriving DecidableEq

/-- `maxSimultaneousRequestsDefault` constant. -/
def maxSimultaneousRequestsDefault : Int := 15

/-- `minSimultaneousRequestsDefault` constant. -/
def minSimultaneousRequestsDefault : Int := 2

/-- `waitTimeDefault = 3 * time.Second`, in nanoseconds. -/
def waitTimeDefault : Int := 3000000000

/-- `(*RatelimitObject).initiate` of `ratelimit.go`: each zero-valued
field is replaced by its default, in source order. -/
def initiate (r : RatelimitObject) : RatelimitObject :=
  let r1 := if r.waitTime = 0 then { r with waitTime := waitTimeDefault } else r
  let r2 := if r1.predictedDuration = 0 then
      { r1 with predictedDuration := r1.waitTime } else r1
  let r3 := if r2.maxRequests = 0 then
      { r2 with maxRequests := maxSimultaneousRequestsDefault,
                currentMaxRequestsLevel := maxSimultaneousRequestsDefault } else r2
  if r3.minRequests = 0 then
    { r3 with minRequests := minSimultaneousRequestsDefault } else r3

/-- `RatelimitHandlerDefault` of `ratelimit.go`. -/
def RatelimitHandlerDefault : RatelimitObject :=
  initiate { activeRequestsCount := 0, maxRequests := 0, minRequests := 0,
             currentMaxRequestsLevel := 0, predictedDuration := 0, waitTime := 0 }

/-- `RatelimitHandler` of `ratelimit.go`: struct literal followed by
`initiate`. -/
def RatelimitHandler (maxRequests minRequests waitTime : Int) : RatelimitObject :=
  initiate { activeRequestsCount := 0, maxRequests := maxRequests,
             minRequests := minRequests, currentMaxRequestsLevel := maxRequests,
             predictedDuration := waitTime, waitTime := waitTime }

/-- `(*RatelimitObject).EndRequest` of `ratelimit.go`.  `now` is the
instant of the call, so `elapsedTime = now - request.startedAt` embeds
`time.Since(request.startedAt)`. -/
def endRequest (r : RatelimitObject) (request : Option ActiveRequest)
    (endState : EndRequestState) (now : Int) : RatelimitObject :=
  match request with
  | none => r
  | some req =>
    let r1 := { r with activeRequestsCount := r.activeRequestsCount - 1 }
    let elapsedTime := now - req.startedAt
    let r2 :=
      if endState ≠ EndRequestState.ok then
        if r1.currentMaxRequestsLevel > r1.minRequests then
          if elapsedTime > r1.predictedDuration ∨ elapsedTime > r1.waitTime then
            { r1 with currentMaxRequestsLevel :=
                r1.currentMaxRequestsLevel -
                  Int.tdiv (r1.currentMaxRequestsLevel - r1.minRequests) 2 }
          else
            { r1 with currentMaxRequestsLevel := r1.currentMaxRequestsLevel - 1 }
        else r1
      else
        if r1.currentMaxRequestsLevel < r1.maxRequests then
          { r1 with currentMaxRequestsLevel := r1.currentMaxRequestsLevel + 1 }
        else r1
    if endState = EndRequestState.error then r2
    else if elapsedTime ≥ r2.predictedDuration then
      { r2 with predictedDuration := elapsedTime }
    else
      { r2 with predictedDuration :=
          r2.predictedDuration - Int.tdiv (elapsedTime + r2.predictedDuration) 2 }

/-- `(*RatelimitObject).newRequest` of `ratelimit.go`: increments the
active count and returns the handle. -/
def newRequest (r : RatelimitObject) (now : Int) : ActiveRequest × RatelimitObject :=
  let predictedAt := now + r.predictedDuration
  ({ startedAt := now, predictedAt := predictedAt },
   { r with activeRequestsCount := r.activeRequestsCount + 1 })

/-- Result of one `ServeRequest` call: the returned handle or error, the
durations slept (in call order), and the post-state. -/
structure ServeResult where
  request : Option ActiveRequest
  err : Option String
  sleeps : List Int
  state : RatelimitObject
deriving DecidableEq

/-- `(*RatelimitObject).ServeRequest` of `ratelimit.go` specialized to
`isInitial = false`: the `isInitial && dur <= waitTime` guard is false,
so an over-ceiling call is denied immediately. -/
def serveRequestNoWait (r : RatelimitObject) (now : Int) : ServeResult :=
  if r.activeRequestsCount < r.currentMaxRequestsLevel then
    let p := newRequest r now
    { request := some p.1, err := none, sleeps := [], state := p.2 }
  else
    { request := none, err := some "limit is reached, please try again later",
      sleeps := [], state := r }

/-- `(*RatelimitObject).ServeRequest` of `ratelimit.go`.  The recursive
call after `time.Sleep(dur)` has `isInitial = false`, which is exactly
`serveRequestNoWait` (see `serveRequest_false_eq`); the slept duration is
recorded in `sleeps`. -/
def serveRequest (r : RatelimitObject) (isInitial : Bool) (now : Int) : ServeResult :=
  if r.activeRequestsCount < r.currentMaxRequestsLevel then
    let p := newRequest r now
    { request := some p.1, err := none, sleeps := [], state := p.2 }
  else
    let dur := r.predictedDuration
    if isInitial = true ∧ dur ≤ r.waitTime then
      let res := serveRequestNoWait r (now + dur)
      { res with sleeps := dur :: res.sleeps }
    else
      { request := none, err := some "limit is reached, please try again later",
        sleeps := [], state := r }

/-- Decoding outcome of a POST body, as seen by `ServeHTTP` of `http.go`:
`missing` is `r.Body == nil`, `malformed e` is a `json.Decoder.Decode`
failure with error text `e`, `decoded q` is a successful decode of query
`q` (the JSON decoding itself is external library code). -/
inductive HttpBody where
  | missing : HttpBody
  | malformed : String → HttpBody
  | decoded : String → HttpBody
deriving DecidableEq

/-- The entry-validation prefix of `(*httpHandler).ServeHTTP` of
`http.go` (method check, body checks), up to but not including the
`ServeRequest` call.  On each rejection the handler calls
`writeResponse(nil, NewClientError(...), nil, nil)`, which performs
`EndRequest(nil, endRequestStateError)` on the controller; the returned
string is the client error's message.  `none` means validation passed
and control would proceed to `ServeRequest`. -/
def serveHTTPEntry (r : RatelimitObject) (method : String) (body : HttpBody)
    (now : Int) : Option String × RatelimitObject :=
  if method ≠ "POST" then
    ("request must be a POST", endRequest r none EndRequestState.error now)
  else
    match body with
    | HttpBody.missing =>
        ("request must include a query", endRequest r none EndRequestState.error now)
    | HttpBody.malformed _ =>
        ("request must have a valid JSON structure",
         endRequest r none EndRequestState.error now)
    | HttpBody.decoded _ => (none, r)

/-- Does `pat` occur at the head of `l`? -/
def matchesAt : List Char → List Char → Bool
  | _, [] => true
  | [], _ :: _ => false
  | c :: cs, p :: ps => c = p && matchesAt cs ps

/-- Does `pat` occur anywhere in `l`? -/
def hasSubstring : List Char → List Char → Bool
  | [], pat => pat.isEmpty
  | l@(_ :: rest), pat => matchesAt l pat || hasSubstring rest pat

/-- Does the string `pat` occur inside `s`? -/
def strContainsSub (s pat : String) : Bool := hasSubstring s.data pat.data

/-- The ceiling-bounds invariant of the spec:
`1 ≤ minCeiling ≤ currentCeiling ≤ maxCeiling`. -/
def ceilingInv (r : RatelimitObject) : Prop :=
  1 ≤ r.minRequests ∧ r.minRequests ≤ r.currentMaxRequestsLevel ∧
    r.currentMaxRequestsLevel ≤ r.maxRequests

instance (r : RatelimitObject) : Decidable (ceilingInv r) := by
  unfold ceilingInv; infer_instance

/-- Fold a sequence of `EndRequest` calls, all with the same outcome;
each list element gives the handle and the instant of its release. -/
def releaseAll (endState : EndRequestState) (r : RatelimitObject)
    (l : List (ActiveRequest × Int)) : RatelimitObject :=
  l.foldl (fun s p => endRequest s (some p.1) endState p.2) r

/-- A `ServeRequest` call with `isInitial = false` is `serveRequestNoWait`. -/
theorem serveRequest_false_eq (r : RatelimitObject) (now : Int) :
    serveRequest r false now = serveRequestNoWait r now := by
  simp [serveRequest, serveRequestNoWait]

/-- `EndRequest` never changes the configured limits or the wait budget. -/
theorem endRequest_preserves_limits (r : RatelimitObject)
    (request : Option ActiveRequest) (endState : EndRequestState) (now : Int) :
    (endRequest r request endState now).maxRequests = r.maxRequests ∧
    (endRequest r request endState now).minRequests = r.minRequests ∧
    (endRequest r request endState now).waitTime = r.waitTime := by
  cases request with
  | none => exact ⟨rfl, rfl, rfl⟩
  | some req =>
      simp only [endRequest]
      split_ifs <;> simp

/-- Closed form of `EndRequest` on a non-null handle: the active count is
decremented, the ceiling follows the three-way switch on the outcome, and
the predictor is updated unless the outcome is `error`. -/
theorem endRequest_some_eq (r : RatelimitObject) (req : ActiveRequest)
    (endState : EndRequestState) (now : Int) :
    endRequest r (some req) endState now =
      { activeRequestsCount := r.activeRequestsCount - 1,
        maxRequests := r.maxRequests,
        minRequests := r.minRequests,
        currentMaxRequestsLevel :=
          if endState ≠ EndRequestState.ok then
            if r.currentMaxRequestsLevel > r.minRequests then
              if now - req.startedAt > r.predictedDuration ∨
                  now - req.startedAt > r.waitTime then
                r.currentMaxRequestsLevel -
                  Int.tdiv (r.currentMaxRequestsLevel - r.minRequests) 2
              else r.currentMaxRequestsLevel - 1
            else r.currentMaxRequestsLevel
          else
            if r.currentMaxRequestsLevel < r.maxRequests then
              r.currentMaxRequestsLevel + 1
            else r.currentMaxRequestsLevel,
        predictedDuration :=
          if endState = EndRequestState.error then r.predictedDuration
          else if now - req.startedAt ≥ r.predictedDuration then now - req.startedAt
          else r.predictedDuration -
            Int.tdiv ((now - req.startedAt) + r.predictedDuration) 2,
        waitTime := r.waitTime } := by
  simp only [endRequest]
  split_ifs <;> rfl

/-- `EndRequest` preserves the ceiling-bounds invariant. -/
theorem ceilingInv_endRequest (r : RatelimitObject) (inv : ceilingInv r)
    (request : Option ActiveRequest) (endState : EndRequestState) (now : Int) :
    ceilingInv (endRequest r request endState now) := by
  cases request with
  | none => exact inv
  | some req =>
      obtain ⟨h1, h2, h3⟩ := inv
      simp only [endRequest, ceilingInv]
      split_ifs <;>
        simp_all <;>
        first
          | omega
          | (rw [Int.tdiv_eq_ediv (by omega) (by omega)]; omega)

/-- `ServeRequest` preserves the ceiling-bounds invariant (it only ever
touches `activeRequestsCount`). -/
theorem ceilingInv_serveRequest (r : RatelimitObject) (inv : ceilingInv r)
    (isInitial : Bool) (now : Int) :
    ceilingInv (serveRequest r isInitial now).state := by
  simp only [serveRequest, serveRequestNoWait, newRequest]
  split_ifs <;> simp_all [ceilingInv]

/-- A release with outcome `ok` cannot move the ceiling when it already
sits at `maxRequests`. -/
theorem endRequest_ok_ceiling_at_max (r : RatelimitObject) (req : ActiveRequest)
    (now : Int) (h : r.currentMaxRequestsLevel = r.maxRequests) :
    (endRequest r (some req) EndRequestState.ok now).currentMaxRequestsLevel =
      r.currentMaxRequestsLevel := by
  simp only [endRequest]
  split_ifs <;> simp_all

/-- A release with outcome `canceled` cannot move the ceiling when it
already sits at `minRequests`. -/
theorem endRequest_canceled_ceiling_at_min (r : RatelimitObject) (req : ActiveRequest)
    (now : Int) (h : r.currentMaxRequestsLevel = r.minRequests) :
    (endRequest r (some req) EndRequestState.canceled now).currentMaxRequestsLevel =
      r.currentMaxRequestsLevel := by
  simp only [endRequest]
  split_ifs <;> simp_all

/-- Unfolding lemma for `releaseAll` on a nonempty sequence. -/
theorem releaseAll_cons (endState : EndRequestState) (r : RatelimitObject)
    (p : ActiveRequest × Int) (t : List (ActiveRequest × Int)) :
    releaseAll endState r (p :: t) =
      releaseAll endState (endRequest r (some p.1) endState p.2) t := rfl

/-- Any sequence of `ok` releases started at the hard cap stays there. -/
theorem releaseAll_ok_at_max (l : List (ActiveRequest × Int)) :
    ∀ r : RatelimitObject, r.currentMaxRequestsLevel = r.maxRequests →
      (releaseAll EndRequestState.ok r l).currentMaxRequestsLevel = r.maxRequests := by
  induction l with
  | nil => intro r h; simpa [releaseAll] using h
  | cons p t ih =>
      intro r h
      have hmax := (endRequest_preserves_limits r (some p.1) EndRequestState.ok p.2).1
      have hc := endRequest_ok_ceiling_at_max r p.1 p.2 h
      have h' : (endRequest r (some p.1) EndRequestState.ok p.2).currentMaxRequestsLevel =
          (endRequest r (some p.1) EndRequestState.ok p.2).maxRequests := by
        rw [hc, hmax]; exact h
      rw [releaseAll_cons, ih _ h', hmax]

/-- Any sequence of `canceled` releases started at the floor stays there. -/
theorem releaseAll_canceled_at_min (l : List (ActiveRequest × Int)) :
    ∀ r : RatelimitObject, r.currentMaxRequestsLevel = r.minRequests →
      (releaseAll EndRequestState.canceled r l).currentMaxRequestsLevel = r.minRequests := by
  induction l with
  | nil => intro r h; simpa [releaseAll] using h
  | cons p t ih =>
      intro r h
      have hmin := (endRequest_preserves_limits r (some p.1) EndRequestState.canceled p.2).2.1
      have hc := endRequest_canceled_ceiling_at_min r p.1 p.2 h
      have h' : (endRequest r (some p.1) EndRequestState.canceled p.2).currentMaxRequestsLevel =
          (endRequest r (some p.1) EndRequestState.canceled p.2).minRequests := by
        rw [hc, hmin]; exact h
      rw [releaseAll_cons, ih _ h', hmin]

/-- C1 counterexample: at the spec's own scenario (max=2, min=1,
wait=2 s, one admitted request released with `Error` immediately), the
code moves `currentMaxRequestsLevel` from 2 down to 1, because the
ceiling-update branch fires for every `endState != endRequestStateOK`;
so Release(Error) does not leave the ceiling unchanged. -/
theorem release_error_ceiling_counterexample :
    (RatelimitHandler 2 1 2000000000).currentMaxRequestsLevel = 2 ∧
    (endRequest
        (newRequest (RatelimitHandler 2 1 2000000000) 0).2
        (some (newRequest (RatelimitHandler 2 1 2000000000) 0).1)
        EndRequestState.error 0).currentMaxRequestsLevel = 1 := by decide

/-- C1 (amended): Release(Error) on a non-null handle leaves
`predictedDuration` unchanged and decrements the active count, but it
updates `currentMaxRequestsLevel` exactly as a `Canceled` release with
the same elapsed time would. -/
theorem release_error_effects (r : RatelimitObject) (req : ActiveRequest) (now : Int) :
    (endRequest r (some req) EndRequestState.error now).predictedDuration =
      r.predictedDuration ∧
    (endRequest r (some req) EndRequestState.error now).activeRequestsCount =
      r.activeRequestsCount - 1 ∧
    (endRequest r (some req) EndRequestState.error now).currentMaxRequestsLevel =
      (endRequest r (some req) EndRequestState.canceled now).currentMaxRequestsLevel := by
  rw [endRequest_some_eq, endRequest_some_eq]
  exact ⟨by simp, by simp, by simp⟩

/-- C2 counterexample: with minRequests = 1, currentMaxRequestsLevel = 2
and elapsed = 3 above both the predictor (1) and the wait budget (1),
the halving branch subtracts `(2 - 1) / 2 = 0`, so the ceiling stays at
2 — the claimed "decrement is at least 1" fails. -/
theorem release_canceled_zero_decrement_counterexample :
    (1 : Int) < 2 ∧ ((3 : Int) - 0 > 1 ∨ (3 : Int) - 0 > 1) ∧
    (endRequest ⟨1, 5, 1, 2, 1, 1⟩ (some ⟨0, 0⟩)
        EndRequestState.canceled 3).currentMaxRequestsLevel = 2 := by decide

/-- C2 (amended): on a `Canceled` release with
`minRequests < currentMaxRequestsLevel`, if the elapsed time exceeds the
(pre-update) predictor or the wait budget the ceiling drops by exactly
`(currentMaxRequestsLevel - minRequests) / 2` under truncating integer
division (which is 0 when the ceiling is exactly one above the floor),
and otherwise it drops by exactly 1. -/
theorem release_canceled_ceiling_update (r : RatelimitObject) (req : ActiveRequest)
    (now : Int) (hmin : r.minRequests < r.currentMaxRequestsLevel) :
    ((now - req.startedAt > r.predictedDuration ∨ now - req.startedAt > r.waitTime) →
      (endRequest r (some req) EndRequestState.canceled now).currentMaxRequestsLevel =
        r.currentMaxRequestsLevel -
          Int.tdiv (r.currentMaxRequestsLevel - r.minRequests) 2) ∧
    (¬(now - req.startedAt > r.predictedDuration ∨ now - req.startedAt > r.waitTime) →
      (endRequest r (some req) EndRequestState.canceled now).currentMaxRequestsLevel =
        r.currentMaxRequestsLevel - 1) := by
  rw [endRequest_some_eq]
  constructor <;> intro hcond <;> simp [hcond, hmin]

/-- Witness for `release_canceled_ceiling_update` at minRequests = 1,
ceiling = 4, elapsed = 3 over the predictor: the ceiling becomes
`4 - (4 - 1) / 2 = 3`. -/
theorem release_canceled_ceiling_update_witness :
    (endRequest ⟨1, 5, 1, 4, 1, 1⟩ (some ⟨0, 0⟩)
        EndRequestState.canceled 3).currentMaxRequestsLevel = 3 :=
  ((release_canceled_ceiling_update ⟨1, 5, 1, 4, 1, 1⟩ ⟨0, 0⟩ 3 (by decide)).1
    (by decide)).trans (by decide)

/-- C3: starting from any state satisfying
`1 ≤ minCeiling ≤ currentCeiling ≤ maxCeiling`, every operation —
`ServeRequest` with either flag and `EndRequest` with any handle,
outcome and elapsed time — preserves the invariant; moreover any
sequence of `ok` releases started at the hard cap keeps the ceiling
there, and any sequence of `canceled` releases started at the floor
keeps the ceiling there. -/
theorem controller_ceiling_invariant (r : RatelimitObject) (inv : ceilingInv r) :
    (∀ isInitial now, ceilingInv (serveRequest r isInitial now).state) ∧
    (∀ request endState now, ceilingInv (endRequest r request endState now)) ∧
    (r.currentMaxRequestsLevel = r.maxRequests →
      ∀ l : List (ActiveRequest × Int),
        (releaseAll EndRequestState.ok r l).currentMaxRequestsLevel = r.maxRequests) ∧
    (r.currentMaxRequestsLevel = r.minRequests →
      ∀ l : List (ActiveRequest × Int),
        (releaseAll EndRequestState.canceled r l).currentMaxRequestsLevel =
          r.minRequests) :=
  ⟨fun isInitial now => ceilingInv_serveRequest r inv isInitial now,
   fun request endState now => ceilingInv_endRequest r inv request endState now,
   fun h l => releaseAll_ok_at_max l r h,
   fun h l => releaseAll_canceled_at_min l r h⟩

/-- Witness for `controller_ceiling_invariant`: the default controller
satisfies the invariant and a canceled release keeps it. -/
theorem controller_ceiling_invariant_witness :
    ceilingInv (endRequest RatelimitHandlerDefault
      (some { startedAt := 0, predictedAt := 0 }) EndRequestState.canceled 5) :=
  (controller_ceiling_invariant RatelimitHandlerDefault (by decide)).2.1
    (some { startedAt := 0, predictedAt := 0 }) EndRequestState.canceled 5

/-- C4: when the active count has reached the ceiling, `ServeRequest`
with `isInitial = true` and `predictedDuration ≤ waitTime` sleeps for
exactly `predictedDuration` and retries exactly once with
`isInitial = false`; in every other over-ceiling case it returns at once
without sleeping; and every denial returns a null handle together with
the client error message "limit is reached, please try again later". -/
theorem serveRequest_slow_path (r : RatelimitObject) (now : Int)
    (h : r.currentMaxRequestsLevel ≤ r.activeRequestsCount) :
    (r.predictedDuration ≤ r.waitTime →
      serveRequest r true now =
        { serveRequest r false (now + r.predictedDuration) with
            sleeps := r.predictedDuration ::
              (serveRequest r false (now + r.predictedDuration)).sleeps }) ∧
    (¬r.predictedDuration ≤ r.waitTime →
      serveRequest r true now =
        { request := none, err := some "limit is reached, please try again later",
          sleeps := [], state := r }) ∧
    (∀ now2, serveRequest r false now2 =
      { request := none, err := some "limit is reached, please try again later",
        sleeps := [], state := r }) ∧
    (∀ isInitial now2, (serveRequest r isInitial now2).request = none →
      (serveRequest r isInitial now2).err =
        some "limit is reached, please try again later") := by
  have hn : ¬r.activeRequestsCount < r.currentMaxRequestsLevel := by omega
  refine ⟨?_, ?_, ?_, ?_⟩
  · intro hw
    rw [serveRequest_false_eq]
    simp [serveRequest, hn, hw]
  · intro hw
    simp [serveRequest, hn, hw]
  · intro now2
    rw [serveRequest_false_eq]
    simp [serveRequestNoWait, hn]
  · intro isInitial now2
    cases isInitial
    · simp [serveRequest, serveRequestNoWait, hn]
    · simp [serveRequest, serveRequestNoWait, hn]
      split_ifs <;> simp

/-- Witness for `serveRequest_slow_path`: a full controller with
predictor 1 within wait budget 3 sleeps 1 tick, retries, is denied, and
reports the stable denial message. -/
theorem serveRequest_slow_path_witness :
    serveRequest ⟨2, 5, 1, 2, 1, 3⟩ true 0 =
      { request := none, err := some "limit is reached, please try again later",
        sleeps := [1], state := ⟨2, 5, 1, 2, 1, 3⟩ } :=
  ((serveRequest_slow_path ⟨2, 5, 1, 2, 1, 3⟩ 0 (by decide)).1 (by decide)).trans
    (by decide)

/-- C5: on any release whose outcome is not `Error`, the new predictor
equals the elapsed time exactly when `elapsed ≥ predictedDuration` and
otherwise equals `predictedDuration - (elapsed + predictedDuration)/2`
under truncating division; and the ceiling written by the same call is
computed from the pre-update predictor (the ceiling update precedes the
predictor update). -/
theorem endRequest_update_order_and_predictor (r : RatelimitObject)
    (req : ActiveRequest) (now : Int) (endState : EndRequestState)
    (h : endState ≠ EndRequestState.error) :
    ((endRequest r (some req) endState now).predictedDuration =
      if now - req.startedAt ≥ r.predictedDuration then now - req.startedAt
      else r.predictedDuration -
        Int.tdiv ((now - req.startedAt) + r.predictedDuration) 2) ∧
    ((endRequest r (some req) endState now).currentMaxRequestsLevel =
      if endState ≠ EndRequestState.ok then
        if r.currentMaxRequestsLevel > r.minRequests then
          if now - req.startedAt > r.predictedDuration ∨
              now - req.startedAt > r.waitTime then
            r.currentMaxRequestsLevel -
              Int.tdiv (r.currentMaxRequestsLevel - r.minRequests) 2
          else r.currentMaxRequestsLevel - 1
        else r.currentMaxRequestsLevel
      else
        if r.currentMaxRequestsLevel < r.maxRequests then
          r.currentMaxRequestsLevel + 1
        else r.currentMaxRequestsLevel) := by
  rw [endRequest_some_eq]
  exact ⟨by simp [h], by simp⟩

/-- Witness for `endRequest_update_order_and_predictor`: a canceled
release with elapsed 4 under predictor 10 yields predictor
`10 - (4 + 10)/2 = 3` and ceiling `3 - 1 = 2`. -/
theorem endRequest_update_order_and_predictor_witness :
    (endRequest ⟨1, 5, 1, 3, 10, 10⟩ (some ⟨0, 0⟩)
        EndRequestState.canceled 4).predictedDuration = 3 ∧
    (endRequest ⟨1, 5, 1, 3, 10, 10⟩ (some ⟨0, 0⟩)
        EndRequestState.canceled 4).currentMaxRequestsLevel = 2 :=
  have h := endRequest_update_order_and_predictor ⟨1, 5, 1, 3, 10, 10⟩ ⟨0, 0⟩ 4
    EndRequestState.canceled (by decide)
  ⟨h.1.trans (by decide), h.2.trans (by decide)⟩

/-- C6: from a state with a strictly positive predictor, any release
with non-negative elapsed time keeps the predictor strictly positive;
in particular on the decrease branch (`0 ≤ elapsed < predictedDuration`)
the value `predictedDuration - (elapsed + predictedDuration)/2` is
strictly positive. -/
theorem endRequest_predictor_positive (r : RatelimitObject) (req : ActiveRequest)
    (now : Int) (endState : EndRequestState)
    (hp : 0 < r.predictedDuration) (he : 0 ≤ now - req.startedAt) :
    0 < (endRequest r (some req) endState now).predictedDuration ∧
    (now - req.startedAt < r.predictedDuration →
      0 < r.predictedDuration -
        Int.tdiv ((now - req.startedAt) + r.predictedDuration) 2) := by
  have key : now - req.startedAt < r.predictedDuration →
      0 < r.predictedDuration -
        Int.tdiv ((now - req.startedAt) + r.predictedDuration) 2 := by
    intro hlt
    rw [Int.tdiv_eq_ediv (by omega) (by omega)]
    omega
  refine ⟨?_, key⟩
  rw [endRequest_some_eq]
  simp only
  split_ifs with h1 h2
  · exact hp
  · omega
  · exact key (by omega)

/-- Witness for `endRequest_predictor_positive`: an `ok` release at
elapsed 4 under predictor 10 leaves the predictor at 3 > 0. -/
theorem endRequest_predictor_positive_witness :
    0 < (endRequest ⟨1, 5, 1, 3, 10, 10⟩ (some ⟨0, 0⟩)
        EndRequestState.ok 4).predictedDuration ∧
    ((4 : Int) - 0 < 10 →
      0 < 10 - Int.tdiv ((4 : Int) - 0 + 10) 2) :=
  endRequest_predictor_positive ⟨1, 5, 1, 3, 10, 10⟩ ⟨0, 0⟩ 4
    EndRequestState.ok (by decide) (by decide)

/-- C7: below the ceiling, `ServeRequest` (with either flag) returns a
non-null handle with `startedAt = now` and
`predictedAt = now + predictedDuration`, a nil error and no sleep, and
the post-state differs from the pre-state only by
`activeRequestsCount + 1`. -/
theorem serveRequest_fast_path (r : RatelimitObject) (now : Int)
    (h : r.activeRequestsCount < r.currentMaxRequestsLevel) (isInitial : Bool) :
    serveRequest r isInitial now =
      { request := some { startedAt := now, predictedAt := now + r.predictedDuration },
        err := none, sleeps := [],
        state := { r with activeRequestsCount := r.activeRequestsCount + 1 } } := by
  simp [serveRequest, newRequest, h]

/-- Witness for `serveRequest_fast_path` on the default controller. -/
theorem serveRequest_fast_path_witness :
    serveRequest RatelimitHandlerDefault true 0 =
      { request := some { startedAt := 0, predictedAt := 3000000000 },
        err := none, sleeps := [],
        state := { activeRequestsCount := 1, maxRequests := 15, minRequests := 2,
                   currentMaxRequestsLevel := 15, predictedDuration := 3000000000,
                   waitTime := 3000000000 } } :=
  (serveRequest_fast_path RatelimitHandlerDefault 0 (by decide) true).trans (by decide)

/-- C8 counterexample: for a POST whose body fails to decode (parse
failure text "unexpected EOF"), the handler's client error message is
the fixed string "request must have a valid JSON structure", which does
not contain the parse failure — the message does not quote it. -/
theorem serveHTTP_malformed_message_counterexample :
    (serveHTTPEntry RatelimitHandlerDefault "POST"
        (HttpBody.malformed "unexpected EOF") 0).1 =
      some "request must have a valid JSON structure" ∧
    strContainsSub "request must have a valid JSON structure" "unexpected EOF"
      = false := by decide

/-- C8 (amended): a POST with a malformed body is answered with the
fixed client error "request must have a valid JSON structure"
(independent of the parse failure, which goes only to the out-of-band
error handler), a missing body with exactly "request must include a
query"; both rejections happen before `ServeRequest` and leave the
controller state unchanged (the null-handle `EndRequest` in
`writeResponse` is a no-op), while a decoded body passes validation. -/
theorem serveHTTP_entry_rejections (r : RatelimitObject)
    (parseErr query : String) (now : Int) :
    serveHTTPEntry r "POST" (HttpBody.malformed parseErr) now =
      (some "request must have a valid JSON structure", r) ∧
    serveHTTPEntry r "POST" HttpBody.missing now =
      (some "request must include a query", r) ∧
    serveHTTPEntry r "POST" (HttpBody.decoded query) now = (none, r) := by
  refine ⟨?_, ?_, ?_⟩ <;> simp +decide [serveHTTPEntry, endRequest]

/-- C9: releasing a null handle is a no-op on the whole controller state
for every outcome; releasing any non-null handle unconditionally
decrements `activeRequestsCount` with no underflow check — as the last
conjunct shows, it drives the default controller's count to -1. -/
theorem endRequest_null_noop_total (r : RatelimitObject) :
    (∀ endState now, endRequest r none endState now = r) ∧
    (∀ (req : ActiveRequest) endState now,
      (endRequest r (some req) endState now).activeRequestsCount =
        r.activeRequestsCount - 1) ∧
    (endRequest RatelimitHandlerDefault
        (some { startedAt := 0, predictedAt := 0 })
        EndRequestState.ok 0).activeRequestsCount = -1 := by
  refine ⟨fun _ _ => rfl, fun req endState now => ?_, by decide⟩
  rw [endRequest_some_eq]

/-- C10: the parameterized constructor performs no ordering validation:
for non-zero arguments with `maxRequests < minRequests` (negative values
included) the values are kept as given, so the resulting controller has
`currentMaxRequestsLevel = maxRequests` strictly below `minRequests` and
the ceiling-bounds invariant fails at construction. -/
theorem ratelimitHandler_no_ordering_validation (maxR minR waitT : Int)
    (hmax : maxR ≠ 0) (hmin : minR ≠ 0) (hlt : maxR < minR) :
    (RatelimitHandler maxR minR waitT).currentMaxRequestsLevel = maxR ∧
    (RatelimitHandler maxR minR waitT).maxRequests = maxR ∧
    (RatelimitHandler maxR minR waitT).minRequests = minR ∧
    (RatelimitHandler maxR minR waitT).currentMaxRequestsLevel <
      (RatelimitHandler maxR minR waitT).minRequests := by
  simp only [RatelimitHandler, initiate]
  split_ifs <;> simp_all

/-- Witness for `ratelimitHandler_no_ordering_validation` at the
negative, mis-ordered arguments (-3, -1, 7). -/
theorem ratelimitHandler_no_ordering_validation_witness :
    (RatelimitHandler (-3) (-1) 7).currentMaxRequestsLevel = -3 ∧
    (RatelimitHandler (-3) (-1) 7).maxRequests = -3 ∧
    (RatelimitHandler (-3) (-1) 7).minRequests = -1 ∧
    (RatelimitHandler (-3) (-1) 7).currentMaxRequestsLevel <
      (RatelimitHandler (-3) (-1) 7).minRequests :=
  ratelimitHandler_no_ordering_validation (-3) (-1) 7
    (by decide) (by decide) (by decide)

end Thunder
